import Mathlib

/-!
Shallow embedding of `crates/rolldown/src/ecmascript/ecma_module_view_factory.rs`,
the module-ingestion stage of the rolldown bundler: scanning a parsed module,
resolving its side-effects verdict from the layered precedence of hook
overrides, package-manifest globs and static analysis, and assembling the
immutable module view.

External collaborators (the parser front-end, the AST scanner, path and glob
utilities from other crates) are modelled as opaque inputs or, where a claim
depends on their behaviour, as definitions modelled from the spec and marked
as such in their doc comments.
-/

namespace Rolldown

/-- Tri-state plugin hook verdict (`HookSideEffects` in `rolldown_common`):
`True` = definitely has effects, `False` = definitely none,
`NoTreeshake` = disable tree-shaking for this module. -/
inductive HookSideEffects
  | True
  | False
  | NoTreeshake
deriving DecidableEq

/-- The final tagged side-effects verdict (`DeterminedSideEffects`). -/
inductive DeterminedSideEffects
  | UserDefined (b : Bool)
  | Analyzed (b : Bool)
  | NoTreeshake
deriving DecidableEq

/-- Module content type (`ModuleType` in `rolldown_common`); only the `Css`
case is inspected by the factory. -/
inductive ModuleType
  | Js
  | Jsx
  | Ts
  | Tsx
  | Json
  | Text
  | Base64
  | Dataurl
  | Binary
  | Empty
  | Css
  | Custom (name : String)
deriving DecidableEq

/-- Module definition format (`ModuleDefFormat`). -/
inductive ModuleDefFormat
  | Unknown
  | CJS
  | CjsPackageJson
  | EsmMjs
  | EsmPackageJson
deriving DecidableEq

/-- Globally addressable symbol reference: a `(module identity, local id)`
pair (`SymbolRef`). -/
structure SymbolRef where
  owner : Nat
  symbol : Nat
deriving DecidableEq

/-- Per-top-level-statement metadata (`StmtInfo`); the factory reads only the
`side_effect` flag, the symbol lists are carried for the view. -/
structure StmtInfo where
  side_effect : Bool
  declared_symbols : List SymbolRef := []
  referenced_symbols : List SymbolRef := []
deriving DecidableEq

/-- A filesystem path, modelled as its list of components relative to the
filesystem root (so `/pkg/package.json` is `⟨["pkg", "package.json"]⟩`). -/
structure Path where
  components : List String
deriving DecidableEq

/-- Modelled from the spec: `std::path::Path::parent`, external to this file.
Drops the final component; the root has no parent. -/
def Path.parent (p : Path) : Option Path :=
  match p.components with
  | [] => none
  | _ => some ⟨p.components.dropLast⟩

/-- Strip the longest common prefix of two component lists, returning the two
remainders. -/
def stripCommon : List String → List String → List String × List String
  | a :: as, b :: bs =>
    if a = b then stripCommon as bs else (a :: as, b :: bs)
  | as, bs => (as, bs)

/-- Modelled from the spec: `sugar_path::SugarPath::relative`, external to this
file — the module's path made relative to a base directory: drop the common
prefix, then one `..` per remaining base component followed by the remaining
target components. -/
def Path.relative (target base : Path) : Path :=
  let rest := stripCommon target.components base.components
  ⟨rest.2.map (fun _ => "..") ++ rest.1⟩

/-- Modelled from the spec: `Path::to_string_lossy`, external to this file —
the textual form of a path, components joined with slashes. -/
def Path.toStringLossy (p : Path) : String :=
  String.intercalate ("/") p.components

/-- Modelled from the spec: `ModuleId::stabilize`, external to this file — the
stable display form of a module id, its path made relative to the working
directory. -/
def stabilize (id : Path) (cwd : Path) : String :=
  (id.relative cwd).toStringLossy

/-- Package manifest handle (`PackageJson` in `rolldown_common`): the path of
the `package.json` file itself plus its glob-based side-effects test, which is
keyed by a manifest-relative path and answers `none` when the manifest
declares no side-effects information. -/
structure PackageJson where
  path : Path
  check_side_effects_for : String → Option Bool

/-- Strip a leading `./` from a side-effects file pattern. -/
def stripDotSlash (s : String) : String :=
  match s.data with
  | '.' :: '/' :: rest => String.mk rest
  | _ => s

/-- Modelled from the spec: the package-manifest side-effects glob matcher,
external to this file. For a manifest declaring an explicit file list (the
spec's example is `["./foo.js"]`), a manifest-relative path is a definite
match when it equals one of the listed files with any leading `./` removed,
and a definite no-match otherwise. -/
def globCheckSideEffects (patterns : List String) (rel : String) : Option Bool :=
  some (patterns.any fun pat => stripDotSlash pat = rel)

/-- Modelled from the spec: the per-module side-effects policy function
configured in the normalized tree-shake options (`ModuleSideEffects` in
`rolldown_common`), resolved against a module's stable id. -/
structure ModuleSideEffects where
  resolve : String → Bool

/-- The structured (normalized) tree-shake options; only the per-module
side-effects policy is consulted by the factory. -/
structure TreeshakeNormalizedOptions where
  module_side_effects : ModuleSideEffects

/-- Global tree-shake option (`TreeshakeOptions` in `rolldown_common`): either
a raw boolean or the normalized structured options. -/
inductive TreeshakeOptions
  | Boolean (b : Bool)
  | Option (opt : TreeshakeNormalizedOptions)

/-- The build options consulted by the factory: the global tree-shake policy
and the working directory. -/
structure NormalizedBundlerOptions where
  treeshake : TreeshakeOptions
  cwd : Path

/-- Resolution metadata for the module (`ResolvedId`): canonical id, detected
definition format, optional package manifest. -/
structure ResolvedId where
  id : Path
  module_def_format : ModuleDefFormat
  package_json : Option PackageJson

/-- The per-module construction context (`CreateModuleContext`), including the
enclosing build's warning sink. -/
structure CreateModuleContext where
  module_index : Nat
  module_type : ModuleType
  options : NormalizedBundlerOptions
  resolved_id : ResolvedId
  warnings : List String

/-- The arguments of `create_ecma_view` (`CreateModuleViewArgs`). -/
structure CreateModuleViewArgs where
  source : String
  sourcemap_chain : List String
  hook_side_effects : Option HookSideEffects

/-- Result of the external front-end parse (`ParseToEcmaAstResult`): the ast
(represented by its source text), front-end flags and warnings. -/
structure ParseToEcmaAstResult where
  source : String
  has_lazy_export : Bool
  warning : List String

/-- How the module's exports are interpreted. -/
inductive ExportsKind
  | Esm
  | CommonJs
  | None
deriving DecidableEq

/-- Output of the external AST scanner (`ScanResult`), destructured by
`create_ecma_view`. Payload fields not inspected by the factory are carried
with simplified representations. -/
structure ScanResult where
  named_imports : List (SymbolRef × String)
  named_exports : List (String × SymbolRef)
  stmt_infos : List StmtInfo
  import_records : List String
  default_export_ref : Option SymbolRef
  imports : List (String × Nat)
  exports_kind : ExportsKind
  warnings : List String
  has_eval : Bool
  errors : List String
  ast_usage : Nat
  symbol_ref_db : Nat
  self_referenced_class_decl_symbol_ids : List Nat
  has_star_exports : Bool

/-- The per-module boolean flag set (`EcmaViewMeta`). -/
structure EcmaViewMeta where
  included : Bool
  eval : Bool
  has_lazy_export : Bool
  has_star_exports : Bool

/-- The assembled immutable module view (`EcmaView`). -/
structure EcmaView where
  source : String
  ecma_ast_idx : Option Nat
  named_imports : List (SymbolRef × String)
  named_exports : List (String × SymbolRef)
  stmt_infos : List StmtInfo
  imports : List (String × Nat)
  default_export_ref : Option SymbolRef
  scope : Nat
  exports_kind : ExportsKind
  namespace_object_ref : SymbolRef
  def_format : ModuleDefFormat
  sourcemap_chain : List String
  import_records : List String
  importers : List String
  dynamic_importers : List String
  imported_ids : List String
  dynamically_imported_ids : List String
  side_effects : DeterminedSideEffects
  ast_usage : Nat
  self_referenced_class_decl_symbol_ids : List Nat
  meta : EcmaViewMeta
  mutations : List String

/-- The factory's successful return value (`CreateEcmaViewReturn`). -/
structure CreateEcmaViewReturn where
  view : EcmaView
  raw_import_records : List String
  ast : String
  symbols : Nat

/-- Outcome of running `create_ecma_view`: a constructed return value, a
propagated build error, or a reached `unreachable!()` panic. -/
inductive BuildOutcome (α : Type)
  | ok (value : α)
  | error (errors : List String)
  | panic (msg : String)

/-- The package-manifest layer of the resolver, from
`create_ecma_view`: `ctx.resolved_id.package_json.as_ref().and_then(|p| ...)`.
The glob expression is based on the parent path of `package.json`, so the
module's path is made relative to the package path before the test; a definite
answer is wrapped in `UserDefined`. -/
def check_package_side_effects (package_json : Option PackageJson) (id : Path) :
    Option DeterminedSideEffects :=
  package_json.bind fun p =>
    (p.path.parent).bind fun parent =>
      let module_path_relative_to_package := id.relative parent
      (p.check_side_effects_for module_path_relative_to_package.toStringLossy).map
        DeterminedSideEffects.UserDefined

/-- The `lazy_check_side_effects` closure of `create_ecma_view`: CSS modules
are considered to have side effects by default; otherwise consult the package
manifest glob and fall back to the static per-statement analysis. -/
def lazy_check_side_effects (module_type : ModuleType)
    (package_json : Option PackageJson) (id : Path)
    (stmt_infos : List StmtInfo) : DeterminedSideEffects :=
  if module_type = ModuleType.Css then
    DeterminedSideEffects.Analyzed true
  else
    (check_package_side_effects package_json id).getD
      (DeterminedSideEffects.Analyzed (stmt_infos.any fun stmt_info => stmt_info.side_effect))

/-- The `let side_effects = match args.hook_side_effects { ... }` resolution of
`create_ecma_view`. `none` models the `unreachable!()` panic reached when no
hook verdict is present and the tree-shake option is the literal boolean
`true`. -/
def determine_side_effects (hook_side_effects : Option HookSideEffects)
    (treeshake : TreeshakeOptions) (stable_id : String)
    (module_type : ModuleType) (package_json : Option PackageJson)
    (id : Path) (stmt_infos : List StmtInfo) :
    Option DeterminedSideEffects :=
  match hook_side_effects with
  | some HookSideEffects.True =>
    some (lazy_check_side_effects module_type package_json id stmt_infos)
  | some HookSideEffects.False =>
    some (DeterminedSideEffects.UserDefined false)
  | some HookSideEffects.NoTreeshake =>
    some DeterminedSideEffects.NoTreeshake
  | none =>
    match treeshake with
    | TreeshakeOptions.Boolean false => some DeterminedSideEffects.NoTreeshake
    | TreeshakeOptions.Boolean true => none
    | TreeshakeOptions.Option opt =>
      if opt.module_side_effects.resolve stable_id then
        some (lazy_check_side_effects module_type package_json id stmt_infos)
      else
        some (DeterminedSideEffects.UserDefined false)

/-- Shallow embedding of `create_ecma_view`. The external parse and scan are
supplied as already-computed fallible results; `scope` and
`namespace_object_ref` stand for the outputs of the external symbol/scope
adapter and scanner. Returns the outcome paired with the final contents of the
enclosing build's warning sink. -/
def create_ecma_view (ctx : CreateModuleContext) (args : CreateModuleViewArgs)
    (parse_result : Except (List String) ParseToEcmaAstResult)
    (scan_outcome : Except (List String) ScanResult)
    (scope : Nat) (namespace_object_ref : SymbolRef) :
    BuildOutcome CreateEcmaViewReturn × List String :=
  match parse_result with
  | Except.error e => (BuildOutcome.error e, ctx.warnings)
  | Except.ok pr =>
    match scan_outcome with
    | Except.error e => (BuildOutcome.error e, ctx.warnings ++ pr.warning)
    | Except.ok sr =>
      if sr.errors = [] then
        match determine_side_effects args.hook_side_effects ctx.options.treeshake
            (stabilize ctx.resolved_id.id ctx.options.cwd) ctx.module_type
            ctx.resolved_id.package_json ctx.resolved_id.id sr.stmt_infos with
        | none =>
          (BuildOutcome.panic ("unreachable"), ctx.warnings ++ pr.warning ++ sr.warnings)
        | some side_effects =>
          (BuildOutcome.ok
            { view :=
                { source := pr.source
                  ecma_ast_idx := none
                  named_imports := sr.named_imports
                  named_exports := sr.named_exports
                  stmt_infos := sr.stmt_infos
                  imports := sr.imports
                  default_export_ref := sr.default_export_ref
                  scope := scope
                  exports_kind := sr.exports_kind
                  namespace_object_ref := namespace_object_ref
                  def_format := ctx.resolved_id.module_def_format
                  sourcemap_chain := args.sourcemap_chain
                  import_records := []
                  importers := []
                  dynamic_importers := []
                  imported_ids := []
                  dynamically_imported_ids := []
                  side_effects := side_effects
                  ast_usage := sr.ast_usage
                  self_referenced_class_decl_symbol_ids :=
                    sr.self_referenced_class_decl_symbol_ids
                  meta :=
                    { included := false
                      eval := sr.has_eval
                      has_lazy_export := pr.has_lazy_export
                      has_star_exports := sr.has_star_exports }
                  mutations := [] }
              raw_import_records := sr.import_records
              ast := pr.source
              symbols := sr.symbol_ref_db },
           ctx.warnings ++ pr.warning ++ sr.warnings)
      else
        (BuildOutcome.error sr.errors, ctx.warnings ++ pr.warning)

end Rolldown

namespace Rolldown

/-- The spec's example manifest: located at `/pkg/package.json`, declaring the
side-effect file list `["./foo.js"]`. -/
def pkgManifestFoo : PackageJson :=
  { path := ⟨["pkg", "package.json"]⟩
    check_side_effects_for := globCheckSideEffects ["./foo.js"] }

/-- A construction context for a plain script module with no manifest, empty
warning sink and tree-shaking globally disabled. -/
def ctxFixture : CreateModuleContext :=
  { module_index := 0
    module_type := ModuleType.Js
    options := { treeshake := TreeshakeOptions.Boolean false, cwd := ⟨[]⟩ }
    resolved_id :=
      { id := ⟨["a.js"]⟩
        module_def_format := ModuleDefFormat.EsmMjs
        package_json := none }
    warnings := [] }

/-- The same context with the tree-shake option left as the literal boolean
`true` (not normalized to structured options). -/
def ctxTreeshakeTrue : CreateModuleContext :=
  { module_index := 0
    module_type := ModuleType.Js
    options := { treeshake := TreeshakeOptions.Boolean true, cwd := ⟨[]⟩ }
    resolved_id :=
      { id := ⟨["a.js"]⟩
        module_def_format := ModuleDefFormat.EsmMjs
        package_json := none }
    warnings := [] }

/-- View arguments with no plugin hook verdict. -/
def argsFixture : CreateModuleViewArgs :=
  { source := "const x = 1;", sourcemap_chain := [], hook_side_effects := none }

/-- A parse result carrying one front-end warning. -/
def prFixture : ParseToEcmaAstResult :=
  { source := "const x = 1;", has_lazy_export := false, warning := ["parse warning"] }

/-- A scan result that produced one error and one warning. -/
def srErrorsFixture : ScanResult :=
  { named_imports := [], named_exports := [], stmt_infos := []
    import_records := [], default_export_ref := none, imports := []
    exports_kind := ExportsKind.Esm, warnings := ["scan warning"]
    has_eval := false, errors := ["scan error"], ast_usage := 0, symbol_ref_db := 0
    self_referenced_class_decl_symbol_ids := [], has_star_exports := false }

/-- A scan result with no errors and one warning. -/
def srOkFixture : ScanResult :=
  { named_imports := [], named_exports := [], stmt_infos := []
    import_records := [], default_export_ref := none, imports := []
    exports_kind := ExportsKind.Esm, warnings := ["scan warning"]
    has_eval := false, errors := [], ast_usage := 0, symbol_ref_db := 0
    self_referenced_class_decl_symbol_ids := [], has_star_exports := false }

end Rolldown

namespace Rolldown

/-- C1 counterexample: a stylesheet (CSS) module with a plugin hook verdict of
"definitely none" and a manifest glob answering "no effects" resolves to
`UserDefined(false)`, not `Analyzed(true)` — the hook verdict, not the module
type, wins. -/
theorem c1_counterexample :
    determine_side_effects (some HookSideEffects.False) (TreeshakeOptions.Boolean false)
        ("pkg/styles.css") ModuleType.Css (some pkgManifestFoo) ⟨["pkg", "styles.css"]⟩ []
      = some (DeterminedSideEffects.UserDefined false)
    ∧ DeterminedSideEffects.UserDefined false ≠ DeterminedSideEffects.Analyzed true :=
  ⟨rfl, by decide⟩

/-- C1 (amended): a stylesheet (CSS) module resolves to `Analyzed(true)`
regardless of the manifest glob and of statement analysis whenever the lazy
side-effects check runs, i.e. when the hook verdict is "definitely has
effects" or when no hook verdict is present and the structured options' per-
module predicate allows analysis. Hook verdicts of "definitely none" /
"disable tree-shaking" and a globally disabled tree-shake option still take
precedence over the type override. -/
theorem c1_css_type_override (hook : Option HookSideEffects) (ts : TreeshakeOptions)
    (stable_id : String) (package_json : Option PackageJson) (id : Path)
    (stmt_infos : List StmtInfo)
    (h : hook = some HookSideEffects.True ∨
         hook = none ∧ ∃ opt, ts = TreeshakeOptions.Option opt ∧
           opt.module_side_effects.resolve stable_id = true) :
    determine_side_effects hook ts stable_id ModuleType.Css package_json id stmt_infos
      = some (DeterminedSideEffects.Analyzed true) := by
  rcases h with h | ⟨hn, opt, hts, hres⟩
  · subst h
    simp [determine_side_effects, lazy_check_side_effects]
  · subst hn; subst hts
    simp [determine_side_effects, lazy_check_side_effects, hres]

/-- Witness for C1: a concrete CSS module with hook verdict "definitely has
effects" and a manifest glob answering "no effects" still resolves to
`Analyzed(true)`. -/
theorem c1_css_type_override_witness :
    determine_side_effects (some HookSideEffects.True) (TreeshakeOptions.Boolean false)
        ("pkg/styles.css") ModuleType.Css (some pkgManifestFoo) ⟨["pkg", "styles.css"]⟩ []
      = some (DeterminedSideEffects.Analyzed true) :=
  c1_css_type_override _ _ _ _ _ _ (Or.inl rfl)

/-- C2 counterexample: with a hook verdict of "definitely has effects", a
script module with zero side-effecting statements and no manifest answer
resolves to `Analyzed(false)` — not a side-effecting verdict — and the result
does depend on the statement scan (adding a side-effecting statement flips
it), so static analysis is performed. -/
theorem c2_counterexample :
    determine_side_effects (some HookSideEffects.True) (TreeshakeOptions.Boolean false)
        ("a.js") ModuleType.Js none ⟨["a.js"]⟩ []
      = some (DeterminedSideEffects.Analyzed false)
    ∧ determine_side_effects (some HookSideEffects.True) (TreeshakeOptions.Boolean false)
        ("a.js") ModuleType.Js none ⟨["a.js"]⟩ [({ side_effect := true } : StmtInfo)]
      = some (DeterminedSideEffects.Analyzed true) :=
  ⟨rfl, rfl⟩

/-- C2 (amended): a hook verdict of "definitely has effects" falls through to
the package-manifest and static-analysis layers: for a non-CSS module with no
manifest answer the verdict is `Analyzed(b)` where `b` holds iff some
statement is marked side-effecting — in particular `Analyzed(false)` for a
module with zero side-effecting statements. -/
theorem c2_hook_true_falls_through (ts : TreeshakeOptions) (stable_id : String)
    (module_type : ModuleType) (package_json : Option PackageJson) (id : Path)
    (stmt_infos : List StmtInfo)
    (hcss : module_type ≠ ModuleType.Css)
    (hpkg : check_package_side_effects package_json id = none) :
    determine_side_effects (some HookSideEffects.True) ts stable_id module_type
        package_json id stmt_infos
      = some (DeterminedSideEffects.Analyzed (stmt_infos.any fun s => s.side_effect)) := by
  simp [determine_side_effects, lazy_check_side_effects, hcss, hpkg]

/-- Witness for C2 (amended) at a concrete script module with one
non-side-effecting statement. -/
theorem c2_hook_true_falls_through_witness :
    determine_side_effects (some HookSideEffects.True) (TreeshakeOptions.Boolean false)
        ("a.js") ModuleType.Js none ⟨["a.js"]⟩ [({ side_effect := false } : StmtInfo)]
      = some (DeterminedSideEffects.Analyzed
          (List.any [({ side_effect := false } : StmtInfo)] fun s => s.side_effect)) :=
  c2_hook_true_falls_through _ _ _ _ _ _ (by decide) rfl

/-- C3 counterexample: with the global tree-shake option disabled but a hook
verdict of "definitely none" present, the verdict is `UserDefined(false)`,
not `NoTreeshake` — the hook verdict wins over the disabled option. -/
theorem c3_counterexample :
    determine_side_effects (some HookSideEffects.False) (TreeshakeOptions.Boolean false)
        ("b.js") ModuleType.Js none ⟨["b.js"]⟩ []
      = some (DeterminedSideEffects.UserDefined false)
    ∧ DeterminedSideEffects.UserDefined false ≠ DeterminedSideEffects.NoTreeshake :=
  ⟨rfl, by decide⟩

/-- C3 (amended): when the global tree-shake option is disabled and no hook
verdict is present, every module resolves to `NoTreeshake` regardless of the
package manifest and of the statement scan; a present hook verdict takes
precedence over the disabled option. -/
theorem c3_treeshake_disabled (stable_id : String) (module_type : ModuleType)
    (package_json : Option PackageJson) (id : Path) (stmt_infos : List StmtInfo) :
    determine_side_effects none (TreeshakeOptions.Boolean false) stable_id module_type
        package_json id stmt_infos
      = some DeterminedSideEffects.NoTreeshake :=
  rfl

/-- Witness for C3 (amended) at a concrete module with a manifest that would
answer "no effects". -/
theorem c3_treeshake_disabled_witness :
    determine_side_effects none (TreeshakeOptions.Boolean false) ("b.js") ModuleType.Js
        (some pkgManifestFoo) ⟨["b.js"]⟩ [] = some DeterminedSideEffects.NoTreeshake :=
  c3_treeshake_disabled _ _ _ _ _

/-- C4: when no higher-precedence layer fires — the module is not a
stylesheet, no hook verdict is present, the structured options' per-module
predicate allows analysis, and the manifest layer gives no answer — the
verdict is `Analyzed` of "some statement is marked side-effecting": in
particular `Analyzed(true)` iff at least one `StmtInfo` has the side-effect
flag, else `Analyzed(false)`. -/
theorem c4_static_analysis_fallback (opt : TreeshakeNormalizedOptions)
    (stable_id : String) (module_type : ModuleType)
    (package_json : Option PackageJson) (id : Path) (stmt_infos : List StmtInfo)
    (hcss : module_type ≠ ModuleType.Css)
    (hpkg : check_package_side_effects package_json id = none)
    (hallow : opt.module_side_effects.resolve stable_id = true) :
    determine_side_effects none (TreeshakeOptions.Option opt) stable_id module_type
        package_json id stmt_infos
      = some (DeterminedSideEffects.Analyzed (stmt_infos.any fun s => s.side_effect)) := by
  simp [determine_side_effects, lazy_check_side_effects, hcss, hpkg, hallow]

/-- Witness for C4 at a concrete module with one side-effecting statement. -/
theorem c4_static_analysis_fallback_witness :
    determine_side_effects none (TreeshakeOptions.Option ⟨⟨fun _ => true⟩⟩) ("c.js")
        ModuleType.Js none ⟨["c.js"]⟩ [({ side_effect := true } : StmtInfo)]
      = some (DeterminedSideEffects.Analyzed
          (List.any [({ side_effect := true } : StmtInfo)] fun s => s.side_effect)) :=
  c4_static_analysis_fallback _ _ _ _ _ _ (by decide) rfl rfl

/-- C5: the path tested against the manifest glob is the module's path made
relative to the manifest's directory, a definite answer yields
`UserDefined(bool)` independently of the statement scan, and on the spec's
example — manifest `["./foo.js"]` at `/pkg/package.json` — the module
`/pkg/foo.js` matches while `/other/pkg2/foo.js` does not. -/
theorem c5_glob_relativity :
    (∀ stmt_infos : List StmtInfo,
      determine_side_effects (some HookSideEffects.True) (TreeshakeOptions.Boolean false)
          ("pkg/foo.js") ModuleType.Js (some pkgManifestFoo) ⟨["pkg", "foo.js"]⟩ stmt_infos
        = some (DeterminedSideEffects.UserDefined true))
    ∧ (∀ stmt_infos : List StmtInfo,
      determine_side_effects (some HookSideEffects.True) (TreeshakeOptions.Boolean false)
          ("x") ModuleType.Js (some pkgManifestFoo) ⟨["other", "pkg2", "foo.js"]⟩ stmt_infos
        = some (DeterminedSideEffects.UserDefined false))
    ∧ (Path.relative ⟨["pkg", "foo.js"]⟩ ⟨["pkg"]⟩).toStringLossy = ("foo.js")
    ∧ (Path.relative ⟨["other", "pkg2", "foo.js"]⟩ ⟨["pkg"]⟩).toStringLossy
        = ("../other/pkg2/foo.js") :=
  ⟨fun _ => rfl, fun _ => rfl, rfl, rfl⟩

/-- Witness for C5 at a concrete statement list. -/
theorem c5_glob_relativity_witness :
    determine_side_effects (some HookSideEffects.True) (TreeshakeOptions.Boolean false)
        ("pkg/foo.js") ModuleType.Js (some pkgManifestFoo) ⟨["pkg", "foo.js"]⟩
        [({ side_effect := false } : StmtInfo)]
      = some (DeterminedSideEffects.UserDefined true) :=
  c5_glob_relativity.1 _

end Rolldown

namespace Rolldown

/-- C6: a hook verdict of "definitely none" resolves to `UserDefined(false)`
and "disable tree-shaking" resolves to `NoTreeshake`, in both cases for every
package manifest and every statement list — neither the manifest glob test nor
the static statement analysis influences the result. -/
theorem c6_hook_false_and_notreeshake (ts : TreeshakeOptions) (stable_id : String)
    (module_type : ModuleType) (package_json : Option PackageJson) (id : Path)
    (stmt_infos : List StmtInfo) :
    determine_side_effects (some HookSideEffects.False) ts stable_id module_type
        package_json id stmt_infos = some (DeterminedSideEffects.UserDefined false)
    ∧ determine_side_effects (some HookSideEffects.NoTreeshake) ts stable_id module_type
        package_json id stmt_infos = some DeterminedSideEffects.NoTreeshake :=
  ⟨rfl, rfl⟩

/-- Witness for C6 at a concrete module whose manifest and statement list
would say otherwise. -/
theorem c6_hook_false_and_notreeshake_witness :
    determine_side_effects (some HookSideEffects.False) (TreeshakeOptions.Boolean false)
        ("pkg/foo.js") ModuleType.Js (some pkgManifestFoo) ⟨["pkg", "foo.js"]⟩
        [({ side_effect := true } : StmtInfo)]
      = some (DeterminedSideEffects.UserDefined false) :=
  (c6_hook_false_and_notreeshake _ _ _ _ _ _).1

/-- C7: with no hook verdict, structured tree-shake options, and a per-module
predicate answering "do not treat as side-effect-free candidate" for the
module's stable id, the verdict is `UserDefined(false)` for every manifest and
every statement list — static analysis is not consulted. -/
theorem c7_predicate_denies (opt : TreeshakeNormalizedOptions) (stable_id : String)
    (module_type : ModuleType) (package_json : Option PackageJson) (id : Path)
    (stmt_infos : List StmtInfo)
    (hdeny : opt.module_side_effects.resolve stable_id = false) :
    determine_side_effects none (TreeshakeOptions.Option opt) stable_id module_type
        package_json id stmt_infos = some (DeterminedSideEffects.UserDefined false) := by
  simp [determine_side_effects, hdeny]

/-- Witness for C7 at a concrete always-denying predicate. -/
theorem c7_predicate_denies_witness :
    determine_side_effects none (TreeshakeOptions.Option ⟨⟨fun _ => false⟩⟩) ("d.js")
        ModuleType.Js (some pkgManifestFoo) ⟨["d.js"]⟩
        [({ side_effect := true } : StmtInfo)]
      = some (DeterminedSideEffects.UserDefined false) :=
  c7_predicate_denies _ _ _ _ _ _ rfl

/-- C8: when the scan result carries at least one error, `create_ecma_view`
returns exactly those scan errors and no module view is constructed —
construction is all-or-nothing. -/
theorem c8_scan_errors_fail_fast (ctx : CreateModuleContext)
    (args : CreateModuleViewArgs) (pr : ParseToEcmaAstResult) (sr : ScanResult)
    (scope : Nat) (nref : SymbolRef)
    (herr : sr.errors ≠ []) :
    (create_ecma_view ctx args (Except.ok pr) (Except.ok sr) scope nref).1
      = BuildOutcome.error sr.errors
    ∧ ∀ ret, (create_ecma_view ctx args (Except.ok pr) (Except.ok sr) scope nref).1
        ≠ BuildOutcome.ok ret := by
  have h : create_ecma_view ctx args (Except.ok pr) (Except.ok sr) scope nref
      = (BuildOutcome.error sr.errors, ctx.warnings ++ pr.warning) := by
    simp [create_ecma_view, herr]
  refine ⟨by rw [h], fun ret => by rw [h]; simp⟩

/-- Witness for C8 at a concrete scan result with one error. -/
theorem c8_scan_errors_fail_fast_witness :
    srErrorsFixture.errors ≠ []
    ∧ (create_ecma_view ctxFixture argsFixture (Except.ok prFixture)
        (Except.ok srErrorsFixture) 0 ⟨0, 0⟩).1
      = BuildOutcome.error srErrorsFixture.errors :=
  ⟨by decide, (c8_scan_errors_fail_fast ctxFixture argsFixture prFixture srErrorsFixture
      0 ⟨0, 0⟩ (by decide)).1⟩

/-- C9 counterexample: in a run whose scan produced an error, the scan's
warnings are not appended to the warning sink — the factory returns the error
first, so the final sink holds only the parse warning even though the scan
produced a warning. -/
theorem c9_counterexample :
    (create_ecma_view ctxFixture argsFixture (Except.ok prFixture)
        (Except.ok srErrorsFixture) 0 ⟨0, 0⟩).2 = ["parse warning"]
    ∧ srErrorsFixture.warnings = ["scan warning"]
    ∧ ("scan warning") ∉ (["parse warning"] : List String) :=
  ⟨rfl, rfl, by decide⟩

/-- C9 (amended): warnings never abort construction; parse warnings are always
appended, and scan warnings are appended exactly in the runs whose scan
produced no errors — when the scan errors, its warnings are dropped. -/
theorem c9_warnings_on_success (ctx : CreateModuleContext) (args : CreateModuleViewArgs)
    (pr : ParseToEcmaAstResult) (sr : ScanResult) (scope : Nat) (nref : SymbolRef)
    (herr : sr.errors = []) :
    (create_ecma_view ctx args (Except.ok pr) (Except.ok sr) scope nref).2
      = ctx.warnings ++ pr.warning ++ sr.warnings
    ∧ ∀ e, (create_ecma_view ctx args (Except.ok pr) (Except.ok sr) scope nref).1
        ≠ BuildOutcome.error e := by
  cases hd : determine_side_effects args.hook_side_effects ctx.options.treeshake
      (stabilize ctx.resolved_id.id ctx.options.cwd) ctx.module_type
      ctx.resolved_id.package_json ctx.resolved_id.id sr.stmt_infos with
  | none => exact ⟨by simp [create_ecma_view, herr, hd], fun e => by simp [create_ecma_view, herr, hd]⟩
  | some v => exact ⟨by simp [create_ecma_view, herr, hd], fun e => by simp [create_ecma_view, herr, hd]⟩

/-- Witness for C9 (amended) at a concrete error-free scan. -/
theorem c9_warnings_on_success_witness :
    srOkFixture.errors = []
    ∧ (create_ecma_view ctxFixture argsFixture (Except.ok prFixture)
        (Except.ok srOkFixture) 0 ⟨0, 0⟩).2
      = ctxFixture.warnings ++ prFixture.warning ++ srOkFixture.warnings :=
  ⟨rfl, (c9_warnings_on_success ctxFixture argsFixture prFixture srOkFixture
      0 ⟨0, 0⟩ rfl).1⟩

/-- C10: with no hook verdict and the tree-shake option left as the literal
boolean `true`, `create_ecma_view` reaches the `unreachable!()` panic; and the
side-effects resolution is total on every input whose tree-shake option is not
the literal boolean `true`, i.e. the panic branch is unreachable once an
enabled option has been normalized to its structured form. -/
theorem c10_unreachable_on_boolean_true (ctx : CreateModuleContext)
    (args : CreateModuleViewArgs) (pr : ParseToEcmaAstResult) (sr : ScanResult)
    (scope : Nat) (nref : SymbolRef)
    (hhook : args.hook_side_effects = none)
    (hts : ctx.options.treeshake = TreeshakeOptions.Boolean true)
    (herr : sr.errors = []) :
    (create_ecma_view ctx args (Except.ok pr) (Except.ok sr) scope nref).1
      = BuildOutcome.panic ("unreachable")
    ∧ ∀ (hook : Option HookSideEffects) (ts : TreeshakeOptions) (stable_id : String)
        (module_type : ModuleType) (package_json : Option PackageJson) (id : Path)
        (stmt_infos : List StmtInfo),
        ts ≠ TreeshakeOptions.Boolean true →
        (determine_side_effects hook ts stable_id module_type package_json id
          stmt_infos).isSome = true := by
  constructor
  · simp [create_ecma_view, herr, hhook, hts, determine_side_effects]
  · intro hook ts stable_id module_type package_json id stmt_infos hne
    cases hook with
    | some h => cases h <;> rfl
    | none =>
      cases ts with
      | Boolean b =>
        cases b with
        | false => rfl
        | true => exact absurd rfl hne
      | Option opt =>
        by_cases hr : opt.module_side_effects.resolve stable_id
        · simp [determine_side_effects, hr]
        · simp [determine_side_effects, hr]

/-- Witness for C10 at a concrete context whose tree-shake option is the
literal boolean `true`. -/
theorem c10_unreachable_on_boolean_true_witness :
    (create_ecma_view ctxTreeshakeTrue argsFixture (Except.ok prFixture)
        (Except.ok srOkFixture) 0 ⟨0, 0⟩).1 = BuildOutcome.panic ("unreachable") :=
  (c10_unreachable_on_boolean_true ctxTreeshakeTrue argsFixture prFixture srOkFixture
      0 ⟨0, 0⟩ rfl rfl rfl).1

end Rolldown
